import Mathlib

/-!
Verification development for the EcardV2 backend (signup, login, profile,
admin-gated user management). The definitions below are a shallow embedding
of the JavaScript route handlers and middleware:
  backend/routes/auth.js      (validateSignupInput, signup, login, profile)
  backend/routes/users.js     (isAdmin, deleteUserRoute, updateRoleRoute)
  backend/middleware/auth.js  (verifyToken)
  backend/server.js           (serverStartup)
External collaborators (the bcrypt hasher, the jsonwebtoken
issuer/verifier, the remote user table) are modelled from the
specification contracts the handlers rely on; the constants the handlers
pass to them (cost factor 12, expiry 7d, the exact response strings and
status codes) come from the JavaScript source.
-/

namespace EcardV2

/-- Truthiness of an optional JavaScript string value: `undefined` and the
empty string are falsy, every other string is truthy. -/
def strTruthy : Option String → Bool
  | none => false
  | some s => s != ""

/-- Models JavaScript `String.prototype.trim`: drop leading and trailing
whitespace characters. -/
def jsTrim (s : String) : String :=
  String.mk (((s.toList.dropWhile Char.isWhitespace).reverse.dropWhile
    Char.isWhitespace).reverse)

/-- One character of the signup username format, translating the character
class `[a-zA-Z0-9_]` of the regular expression in `validateSignupInput`. -/
def usernameFormatChar (c : Char) : Bool :=
  (('a' ≤ c && c ≤ 'z') || ('A' ≤ c && c ≤ 'Z') || ('0' ≤ c && c ≤ '9') || c == '_')

/-- Test of the whole-string anchored pattern (one or more characters of
the class) used by `validateSignupInput` on the raw username. -/
def usernameFormatOk (u : String) : Bool :=
  decide (1 ≤ u.length) && u.toList.all usernameFormatChar

/-- Modelled from the spec: the Credential Hasher output (the bcrypt
library is an external collaborator, not part of the repository). A stored
hash records the cost factor, the salt and a one-way digest of the
plaintext; the digest function below stands in for the bcrypt core. -/
structure BcryptHash where
  cost : Nat
  salt : Nat
  digest : Nat
deriving DecidableEq, Repr

/-- Modelled from the spec: the salted one-way digest at the heart of the
Credential Hasher, an executable stand-in mixing cost, salt and plaintext. -/
def bcryptDigest (cost salt : Nat) (plaintext : String) : Nat :=
  plaintext.toList.foldl
    (fun h c => (h * 33 + c.toNat) % 2 ^ 64)
    (5381 + cost * 65536 + salt)

/-- Modelled from the spec: `hash(plaintext)` of the Credential Hasher,
called by signup as `bcrypt.hash(password, 12)`. -/
def bcryptHash (plaintext : String) (cost : Nat) (salt : Nat) : BcryptHash :=
  ⟨cost, salt, bcryptDigest cost salt plaintext⟩

/-- Modelled from the spec: `verify(plaintext, opaque_hash)` of the
Credential Hasher, called by login as `bcrypt.compare`; it re-derives the
digest with the stored cost and salt and compares. -/
def bcryptCompare (plaintext : String) (stored : BcryptHash) : Bool :=
  stored.digest == bcryptDigest stored.cost stored.salt plaintext

/-- Claims embedded in an identity token, exactly the object passed to
`jwt.sign` by signup and login: id, username, role. -/
structure JwtClaims where
  id : Nat
  username : String
  role : String
deriving DecidableEq, Repr

/-- Modelled from the spec: a signed token of the Token Issuer/Verifier
(the jsonwebtoken library is external). The `sig` field records which
secret produced the signature. -/
structure Jwt where
  claims : JwtClaims
  iat : Nat
  exp : Nat
  sig : String
deriving DecidableEq, Repr

/-- The two verification error kinds the middleware distinguishes, named
after the jsonwebtoken error classes. -/
inductive JwtError where
  | TokenExpiredError
  | JsonWebTokenError
deriving DecidableEq, Repr

/-- Modelled from the spec: `jwt.sign(claims, secret, expiresIn)` issues a
token whose expiry is the issue time plus the requested lifetime. -/
def jwtSign (claims : JwtClaims) (secret : String) (now expiresIn : Nat) : Jwt :=
  ⟨claims, now, now + expiresIn, secret⟩

/-- Modelled from the spec: `jwt.verify(token, secret)` checks the
signature first, then expiry, and otherwise recovers the claims. -/
def jwtVerify (t : Jwt) (secret : String) (now : Nat) : Except JwtError JwtClaims :=
  if t.sig != secret then .error .JsonWebTokenError
  else if t.exp ≤ now then .error .TokenExpiredError
  else .ok t.claims

/-- The `expiresIn: "7d"` option passed to `jwt.sign` by signup and login,
in seconds. -/
def sevenDays : Nat := 7 * 24 * 60 * 60

/-- A persisted user row of the remote `users` table. -/
structure User where
  id : Nat
  username : String
  password : BcryptHash
  role : String
  created_at : Nat
deriving DecidableEq, Repr

/-- The projection `id, username, role, created_at` the handlers select
when returning a user: the password hash is absent by type. -/
structure PublicUser where
  id : Nat
  username : String
  role : String
  created_at : Nat
deriving DecidableEq, Repr

/-- Project a row to its password-free view. -/
def User.toPublic (u : User) : PublicUser :=
  ⟨u.id, u.username, u.role, u.created_at⟩

/-- The remote user table, modelled as a list of rows. -/
abbrev UserTable := List User

/-- `select().eq("username", uname).single()`: the first row with the
given username, or none (the PGRST116 no-rows outcome). -/
def findByUsername (db : UserTable) (uname : String) : Option User :=
  db.find? (fun u => u.username == uname)

/-- `select().eq("id", i).single()`: the first row with the given id. -/
def findById (db : UserTable) (i : Nat) : Option User :=
  db.find? (fun u => u.id == i)

/-- `delete().eq("id", i)`: removes the matching rows; deleting zero rows
is not an error under the PostgREST contract. -/
def deleteById (db : UserTable) (i : Nat) : UserTable :=
  db.filter (fun u => u.id != i)

/-- `update(role).eq("id", i)`: rewrites the role of the matching rows;
updating zero rows is not an error under the PostgREST contract. -/
def updateRoleById (db : UserTable) (i : Nat) (r : String) : UserTable :=
  db.map (fun u => if u.id == i then { u with role := r } else u)

/-- A JSON route response: the status code and the optional fields the
handlers put in the body. -/
structure Response where
  status : Nat
  error : Option String
  details : List String
  message : Option String
  user : Option PublicUser
  token : Option Jwt
deriving DecidableEq, Repr

/-- A response carrying only a status code and an error string. -/
def errResp (status : Nat) (e : String) : Response :=
  ⟨status, some e, [], none, none, none⟩

/-- The fields of `req.body` the auth handlers may read; absent fields are
none, and any role field a client supplies is carried here so that the
embedding can show signup ignores it. -/
structure RequestBody where
  username : Option String
  password : Option String
  role : Option String
deriving DecidableEq, Repr

/-- `validateSignupInput(username, password)` from backend/routes/auth.js:
pushes a message for a missing or short username, a message for a missing
or short password, and a message for a present username that fails the
character-class pattern, in that order, collecting all of them. -/
def validateSignupInput (username password : Option String) : List String :=
  (if !strTruthy username || decide ((jsTrim (username.getD "")).length < 3) then
    ["Username must be at least 3 characters long"] else [])
  ++ (if !strTruthy password || decide ((password.getD "").length < 6) then
    ["Password must be at least 6 characters long"] else [])
  ++ (if strTruthy username && !usernameFormatOk (username.getD "") then
    ["Username can only contain letters, numbers, and underscores"] else [])

/-- POST /api/signup from backend/routes/auth.js, on the happy store path:
validate (400 with the full list on any violation), reject a taken
username with 409, otherwise hash the password with cost 12, insert a row
with role forced to user and the current timestamp, sign a 7-day token
from the inserted row, and answer 201 with the password-free user and the
token. `salt` models the salt bcrypt draws and `newId` the id the store
assigns. -/
def signup (body : RequestBody) (db : UserTable) (secret : String)
    (now salt newId : Nat) : Response × UserTable :=
  let validationErrors := validateSignupInput body.username body.password
  if validationErrors.length > 0 then
    (⟨400, some "Validation failed", validationErrors, none, none, none⟩, db)
  else
    match findByUsername db (jsTrim (body.username.getD "")) with
    | some _ =>
      (errResp 409 "Username already exists. Please choose a different one.", db)
    | none =>
      let hashedPassword := bcryptHash (body.password.getD "") 12 salt
      let newUser : User :=
        ⟨newId, jsTrim (body.username.getD ""), hashedPassword, "user", now⟩
      let token := jwtSign ⟨newUser.id, newUser.username, newUser.role⟩ secret now sevenDays
      (⟨201, none, [], some "User created successfully!", some newUser.toPublic, some token⟩,
        db ++ [newUser])

/-- POST /api/login from backend/routes/auth.js: 400 when either field is
falsy; 401 with the one shared error string when the lookup finds no row
or when the hash comparison fails; otherwise a 7-day token and the row
with the password stripped. -/
def login (body : RequestBody) (db : UserTable) (secret : String) (now : Nat) : Response :=
  if !strTruthy body.username || !strTruthy body.password then
    errResp 400 "Username and password are required"
  else
    match findByUsername db (jsTrim (body.username.getD "")) with
    | none => errResp 401 "Invalid credentials"
    | some data =>
      if !bcryptCompare (body.password.getD "") data.password then
        errResp 401 "Invalid credentials"
      else
        ⟨200, none, [], some "Login successful", some data.toPublic,
          some (jwtSign ⟨data.id, data.username, data.role⟩ secret now sevenDays)⟩

/-- The Authorization header: absent, a Bearer-prefixed token, or a bare
token. -/
inductive AuthHeader where
  | missing
  | bearer (t : Jwt)
  | raw (t : Jwt)
deriving DecidableEq, Repr

/-- GET /api/profile from backend/routes/auth.js: it verifies the token
inline in a try/catch whose catch answers 401 Invalid token for every
verification failure, then looks the subject up by id, 404 when the row is
gone. -/
def profile (auth : AuthHeader) (db : UserTable) (secret : String) (now : Nat) : Response :=
  match auth with
  | .missing => errResp 401 "No token provided"
  | .bearer t | .raw t =>
    match jwtVerify t secret now with
    | .error _ => errResp 401 "Invalid token"
    | .ok decoded =>
      match findById db decoded.id with
      | none => errResp 404 "User not found"
      | some data => ⟨200, none, [], none, some data.toPublic, none⟩

/-- Outcome of a middleware stage: a rejection response, or the decoded
claims attached to the request as `req.user`. -/
inductive MwResult where
  | reject (resp : Response)
  | proceed (user : JwtClaims)
deriving DecidableEq, Repr

/-- `verifyToken` from backend/middleware/auth.js: 401 when the header is
absent, 500 when the secret is not configured, then verification mapping
TokenExpiredError to 401 Token expired and JsonWebTokenError to 401
Invalid token; on success the claims flow to the handler. -/
def verifyToken (auth : AuthHeader) (secret : Option String) (now : Nat) : MwResult :=
  match auth with
  | .missing => .reject (errResp 401 "No token provided")
  | .bearer t | .raw t =>
    if !strTruthy secret then .reject (errResp 500 "Server configuration error")
    else
      match jwtVerify t (secret.getD "") now with
      | .error .TokenExpiredError => .reject (errResp 401 "Token expired")
      | .error .JsonWebTokenError => .reject (errResp 401 "Invalid token")
      | .ok decoded => .proceed decoded

/-- `isAdmin` from backend/routes/users.js: 403 unless the decoded role is
admin. -/
def isAdmin (user : JwtClaims) : Option Response :=
  if user.role != "admin" then some (errResp 403 "Admin access required") else none

/-- DELETE /api/users/:id from backend/routes/users.js, the pipeline
verifyToken then isAdmin then the delete; on the happy store path it
always answers 200 User deleted. -/
def deleteUserRoute (auth : AuthHeader) (idParam : Nat) (db : UserTable)
    (secret : Option String) (now : Nat) : Response × UserTable :=
  match verifyToken auth secret now with
  | .reject r => (r, db)
  | .proceed user =>
    match isAdmin user with
    | some r => (r, db)
    | none => (⟨200, none, [], some "User deleted", none, none⟩, deleteById db idParam)

/-- PUT /api/users/:id from backend/routes/users.js, the pipeline
verifyToken then isAdmin then the role update; the body role is written
unvalidated and on the happy store path the answer is 200 User role
updated. -/
def updateRoleRoute (auth : AuthHeader) (idParam : Nat) (role : String) (db : UserTable)
    (secret : Option String) (now : Nat) : Response × UserTable :=
  match verifyToken auth secret now with
  | .reject r => (r, db)
  | .proceed user =>
    match isAdmin user with
    | some r => (r, db)
    | none => (⟨200, none, [], some "User role updated", none, none⟩,
        updateRoleById db idParam role)

/-- The process environment fields backend/server.js consults at boot. -/
structure Env where
  jwtSecret : Option String
  port : Option Nat
deriving DecidableEq, Repr

/-- Boot outcome of backend/server.js: `process.exit(1)` or a listening
server. -/
inductive Startup where
  | exitOne
  | listen (port : Nat)
deriving DecidableEq, Repr

/-- The required-variable check at the bottom of backend/server.js: a
falsy JWT_SECRET halts the process with exit code 1 before listening. -/
def serverStartup (env : Env) : Startup :=
  if !strTruthy env.jwtSecret then .exitOne
  else .listen (env.port.getD 5000)

/-- The role invariant of the data model: a row role is user or admin. -/
def roleOk (u : User) : Bool :=
  u.role == "user" || u.role == "admin"

end EcardV2

namespace EcardV2

/-- Verification succeeds on a correctly signed, unexpired token. -/
theorem jwtVerify_ok (t : Jwt) (s : String) (now : Nat)
    (hsig : t.sig = s) (h : now < t.exp) :
    jwtVerify t s now = .ok t.claims := by
  subst hsig
  simp [jwtVerify, Nat.not_le.mpr h]

/-- Verification of a correctly signed token past its expiry reports
TokenExpiredError. -/
theorem jwtVerify_expired (t : Jwt) (s : String) (now : Nat)
    (hsig : t.sig = s) (h : t.exp ≤ now) :
    jwtVerify t s now = .error .TokenExpiredError := by
  subst hsig
  simp [jwtVerify, h]

/-- Verification of a token signed with a different secret reports
JsonWebTokenError, regardless of expiry. -/
theorem jwtVerify_badsig (t : Jwt) (s : String) (now : Nat)
    (hsig : t.sig ≠ s) :
    jwtVerify t s now = .error .JsonWebTokenError := by
  simp [jwtVerify, bne_iff_ne, hsig]

/-- The middleware attaches the claims when the secret is configured and
the bearer token is signed with it and unexpired. -/
theorem verifyToken_proceed (t : Jwt) (s : String) (now : Nat)
    (hs : s ≠ "") (hsig : t.sig = s) (h : now < t.exp) :
    verifyToken (.bearer t) (some s) now = .proceed t.claims := by
  simp [verifyToken, strTruthy, bne_iff_ne, hs, jwtVerify_ok t s now hsig h]

end EcardV2

namespace EcardV2

/-- C1 counterexample: a token signed with the configured secret but past
its expiry, presented to GET /api/profile, yields 401 with body error
Invalid token, which differs from the claimed 401 Token expired. -/
theorem C1_counterexample :
    profile (.bearer (jwtSign ⟨1, "alice", "user"⟩ "sec" 0 sevenDays)) []
        "sec" (sevenDays + 1) = errResp 401 "Invalid token" ∧
    errResp 401 "Invalid token" ≠ errResp 401 "Token expired" :=
  ⟨by decide, by decide⟩

/-- C1 (amended): GET /api/profile verifies inline and answers 401 Invalid
token for every verification failure, expired tokens included; the
verifyToken middleware, used by the /api/users routes, does reject Expired
and BadSignature with distinct caller-visible reasons, 401 Token expired
versus 401 Invalid token. -/
theorem C1_amended_theorem (t t2 : Jwt) (s : String) (now : Nat) (db : UserTable)
    (hs : s ≠ "") (hsig : t.sig = s) (hexp : t.exp ≤ now) (hbad : t2.sig ≠ s) :
    profile (.bearer t) db s now = errResp 401 "Invalid token" ∧
    verifyToken (.bearer t) (some s) now = .reject (errResp 401 "Token expired") ∧
    verifyToken (.bearer t2) (some s) now = .reject (errResp 401 "Invalid token") := by
  refine ⟨?_, ?_, ?_⟩
  · simp [profile, jwtVerify_expired t s now hsig hexp]
  · simp [verifyToken, strTruthy, bne_iff_ne, hs, jwtVerify_expired t s now hsig hexp]
  · simp [verifyToken, strTruthy, bne_iff_ne, hs, jwtVerify_badsig t2 s now hbad]

/-- C1 witness: the amended statement at a concrete expired token, a
concrete mis-signed token and secret sec, one second past expiry. -/
theorem C1_witness :
    profile (.bearer (jwtSign ⟨1, "alice", "user"⟩ "sec" 0 sevenDays)) []
        "sec" (sevenDays + 1) = errResp 401 "Invalid token" ∧
    verifyToken (.bearer (jwtSign ⟨1, "alice", "user"⟩ "sec" 0 sevenDays)) (some "sec")
        (sevenDays + 1) = .reject (errResp 401 "Token expired") ∧
    verifyToken (.bearer (jwtSign ⟨1, "alice", "user"⟩ "bad" 0 sevenDays)) (some "sec")
        (sevenDays + 1) = .reject (errResp 401 "Invalid token") :=
  C1_amended_theorem (jwtSign ⟨1, "alice", "user"⟩ "sec" 0 sevenDays)
    (jwtSign ⟨1, "alice", "user"⟩ "bad" 0 sevenDays) "sec" (sevenDays + 1) []
    (by decide) rfl (by decide) (by decide)

/-- C2: with both login fields truthy, a lookup that finds no row and a
lookup that finds a row whose hash comparison fails produce the same
response, 401 with the single error string Invalid credentials. -/
theorem C2_theorem (body : RequestBody) (db1 db2 : UserTable) (s1 s2 : String)
    (n1 n2 : Nat) (u : User)
    (hu : strTruthy body.username = true) (hp : strTruthy body.password = true)
    (h1 : findByUsername db1 (jsTrim (body.username.getD "")) = none)
    (h2 : findByUsername db2 (jsTrim (body.username.getD "")) = some u)
    (h3 : bcryptCompare (body.password.getD "") u.password = false) :
    login body db1 s1 n1 = errResp 401 "Invalid credentials" ∧
    login body db2 s2 n2 = errResp 401 "Invalid credentials" := by
  constructor
  · simp [login, hu, hp, h1]
  · simp [login, hu, hp, h2, h3]

/-- C2 witness: the same request against an empty table and against a
table holding alice with a hash of a different password gets the
identical 401 Invalid credentials response. -/
theorem C2_witness :
    login ⟨some "alice", some "pw1234", none⟩ [] "s1" 0 =
      errResp 401 "Invalid credentials" ∧
    login ⟨some "alice", some "pw1234", none⟩
        [⟨1, "alice", bcryptHash "other1" 12 0, "user", 0⟩] "s2" 5 =
      errResp 401 "Invalid credentials" :=
  C2_theorem ⟨some "alice", some "pw1234", none⟩ []
    [⟨1, "alice", bcryptHash "other1" 12 0, "user", 0⟩] "s1" "s2" 0 5
    ⟨1, "alice", bcryptHash "other1" 12 0, "user", 0⟩
    (by decide) (by decide) (by decide) (by decide) (by decide)

/-- C3: an admin-authenticated PUT /api/users/:id carrying role superuser
succeeds with 200 and leaves the table with a row whose role is outside
the user/admin enumeration, breaking the role invariant the update was
claimed to preserve. -/
theorem C3_code_bug_theorem :
    ((updateRoleRoute (.bearer (jwtSign ⟨2, "boss", "admin"⟩ "sec" 0 sevenDays)) 1
        "superuser" [⟨1, "alice", bcryptHash "secret1" 12 0, "user", 0⟩]
        (some "sec") 1).1.status = 200) ∧
    ((updateRoleRoute (.bearer (jwtSign ⟨2, "boss", "admin"⟩ "sec" 0 sevenDays)) 1
        "superuser" [⟨1, "alice", bcryptHash "secret1" 12 0, "user", 0⟩]
        (some "sec") 1).2.all roleOk = false) :=
  ⟨by decide, by decide⟩

end EcardV2

namespace EcardV2

/-- Dropping a prefix by predicate never lengthens a list. -/
theorem length_dropWhile_le (p : Char → Bool) (l : List Char) :
    (l.dropWhile p).length ≤ l.length := by
  induction l with
  | nil => simp [List.dropWhile]
  | cons a l ih =>
    simp only [List.dropWhile]
    split
    · exact Nat.le_trans ih (Nat.le_succ _)
    · simp

/-- Trimming never lengthens a string. -/
theorem length_jsTrim_le (s : String) : (jsTrim s).length ≤ s.length := by
  show (((s.toList.dropWhile Char.isWhitespace).reverse.dropWhile
    Char.isWhitespace).reverse).length ≤ s.length
  rw [List.length_reverse]
  calc ((s.toList.dropWhile Char.isWhitespace).reverse.dropWhile Char.isWhitespace).length
      ≤ (s.toList.dropWhile Char.isWhitespace).reverse.length :=
        length_dropWhile_le _ _
    _ = (s.toList.dropWhile Char.isWhitespace).length := List.length_reverse _
    _ ≤ s.toList.length := length_dropWhile_le _ _
    _ = s.length := rfl

/-- C4: when the username has fewer than 3 characters and the password
fewer than 6, signup answers 400 and its violation list contains both the
username-length message and the password-length message. -/
theorem C4_theorem (uname pw : String) (rolef : Option String) (db : UserTable)
    (s : String) (now salt newId : Nat)
    (hu : uname.length < 3) (hp : pw.length < 6) :
    (signup ⟨some uname, some pw, rolef⟩ db s now salt newId).1.status = 400 ∧
    "Username must be at least 3 characters long" ∈
      (signup ⟨some uname, some pw, rolef⟩ db s now salt newId).1.details ∧
    "Password must be at least 6 characters long" ∈
      (signup ⟨some uname, some pw, rolef⟩ db s now salt newId).1.details := by
  have htrim : (jsTrim uname).length < 3 :=
    lt_of_le_of_lt (length_jsTrim_le uname) hu
  have hval : validateSignupInput (some uname) (some pw) =
      ["Username must be at least 3 characters long"] ++
      ["Password must be at least 6 characters long"] ++
      (if strTruthy (some uname) && !usernameFormatOk uname then
        ["Username can only contain letters, numbers, and underscores"] else []) := by
    simp [validateSignupInput, htrim, hp]
  have hlen : 0 < (validateSignupInput (some uname) (some pw)).length := by
    rw [hval]; simp
  simp [signup, hval, hlen, List.mem_append]

/-- C4 witness: signup with username ab and password 12345 is rejected
with both length messages in the violation list. -/
theorem C4_witness :
    (signup ⟨some "ab", some "12345", none⟩ [] "s" 0 0 1).1.status = 400 ∧
    "Username must be at least 3 characters long" ∈
      (signup ⟨some "ab", some "12345", none⟩ [] "s" 0 0 1).1.details ∧
    "Password must be at least 6 characters long" ∈
      (signup ⟨some "ab", some "12345", none⟩ [] "s" 0 0 1).1.details :=
  C4_theorem "ab" "12345" none [] "s" 0 0 1 (by decide) (by decide)

/-- C5: a signup that passes validation and the uniqueness check answers
201, appends exactly one row whose role is user whatever role the request
body carried, returns that row in the password-free projection, and
returns a 7-day token signed from the inserted row fields id, username
and role. -/
theorem C5_theorem (body : RequestBody) (db : UserTable) (s : String)
    (now salt newId : Nat)
    (hval : validateSignupInput body.username body.password = [])
    (hnone : findByUsername db (jsTrim (body.username.getD "")) = none) :
    signup body db s now salt newId =
      (⟨201, none, [], some "User created successfully!",
        some ⟨newId, jsTrim (body.username.getD ""), "user", now⟩,
        some (jwtSign ⟨newId, jsTrim (body.username.getD ""), "user"⟩ s now sevenDays)⟩,
      db ++ [⟨newId, jsTrim (body.username.getD ""),
        bcryptHash (body.password.getD "") 12 salt, "user", now⟩]) := by
  simp [signup, hval, hnone, User.toPublic]

/-- C5 witness: a concrete signup whose body even asks for role admin is
created with role user, no hash in the returned user, and a token over
the inserted row claims. -/
theorem C5_witness :
    signup ⟨some "alice123", some "secret1", some "admin"⟩ [] "sec" 5 3 1 =
      (⟨201, none, [], some "User created successfully!",
        some ⟨1, jsTrim "alice123", "user", 5⟩,
        some (jwtSign ⟨1, jsTrim "alice123", "user"⟩ "sec" 5 sevenDays)⟩,
      [] ++ [⟨1, jsTrim "alice123",
        bcryptHash "secret1" 12 3, "user", 5⟩]) :=
  C5_theorem ⟨some "alice123", some "secret1", some "admin"⟩ [] "sec" 5 3 1
    (by decide) rfl

/-- C6: the row a successful signup stores carries the hash produced with
cost factor 12 from the submitted password, and verifying that same
password against the stored hash succeeds. -/
theorem C6_theorem (body : RequestBody) (db : UserTable) (s : String)
    (now salt newId : Nat)
    (hval : validateSignupInput body.username body.password = [])
    (hnone : findByUsername db (jsTrim (body.username.getD "")) = none) :
    (signup body db s now salt newId).2 =
      db ++ [⟨newId, jsTrim (body.username.getD ""),
        bcryptHash (body.password.getD "") 12 salt, "user", now⟩] ∧
    (bcryptHash (body.password.getD "") 12 salt).cost = 12 ∧
    bcryptCompare (body.password.getD "")
      (bcryptHash (body.password.getD "") 12 salt) = true := by
  refine ⟨?_, rfl, ?_⟩
  · simp [signup, hval, hnone]
  · simp [bcryptCompare, bcryptHash]

/-- C6 witness: the concrete signup of alice123 stores the cost-12 hash of
secret1 and verifying secret1 against it succeeds. -/
theorem C6_witness :
    (signup ⟨some "alice123", some "secret1", none⟩ [] "sec" 5 3 1).2 =
      [] ++ [⟨1, jsTrim "alice123", bcryptHash "secret1" 12 3, "user", 5⟩] ∧
    (bcryptHash "secret1" 12 3).cost = 12 ∧
    bcryptCompare "secret1" (bcryptHash "secret1" 12 3) = true :=
  C6_theorem ⟨some "alice123", some "secret1", none⟩ [] "sec" 5 3 1
    (by decide) rfl

end EcardV2

namespace EcardV2

/-- A token found in a login response was issued at the request time with
the 7-day expiry and the server secret. -/
theorem login_token_shape (body : RequestBody) (db : UserTable) (s : String)
    (T : Nat) (t : Jwt) (h : (login body db s T).token = some t) :
    t.iat = T ∧ t.exp = T + sevenDays ∧ t.sig = s := by
  unfold login at h
  split at h
  · simp [errResp] at h
  · split at h
    · simp [errResp] at h
    · split at h
      · simp [errResp] at h
      · simp only [Option.some.injEq] at h
        subst h
        exact ⟨rfl, rfl, rfl⟩

/-- A token found in a signup response was issued at the request time with
the 7-day expiry and the server secret. -/
theorem signup_token_shape (body : RequestBody) (db : UserTable) (s : String)
    (T salt newId : Nat) (t : Jwt)
    (h : (signup body db s T salt newId).1.token = some t) :
    t.iat = T ∧ t.exp = T + sevenDays ∧ t.sig = s := by
  by_cases hv : 0 < (validateSignupInput body.username body.password).length
  · simp [signup, hv] at h
  · cases hf : findByUsername db (jsTrim (body.username.getD "")) with
    | some u => simp [signup, hv, hf, errResp] at h
    | none =>
      simp only [signup, hv, hf, if_false, Option.some.injEq] at h
      rw [← h]
      exact ⟨rfl, rfl, rfl⟩

/-- C7: every token handed out by login or signup at time T is issued at T
with expiry T plus seven days under the server secret; verifying it with
that secret succeeds strictly before the expiry instant and reports
TokenExpiredError strictly after it. -/
theorem C7_theorem (s : String) (T now salt newId : Nat) (body : RequestBody)
    (db : UserTable) (t : Jwt)
    (hiss : (login body db s T).token = some t ∨
      (signup body db s T salt newId).1.token = some t) :
    t.iat = T ∧ t.exp = T + sevenDays ∧ t.sig = s ∧
    (now < T + sevenDays → jwtVerify t s now = .ok t.claims) ∧
    (T + sevenDays < now → jwtVerify t s now = .error .TokenExpiredError) := by
  have hshape : t.iat = T ∧ t.exp = T + sevenDays ∧ t.sig = s := by
    rcases hiss with h | h
    · exact login_token_shape body db s T t h
    · exact signup_token_shape body db s T salt newId t h
  obtain ⟨h1, h2, h3⟩ := hshape
  refine ⟨h1, h2, h3, ?_, ?_⟩
  · intro hlt
    exact jwtVerify_ok t s now h3 (by rw [h2]; exact hlt)
  · intro hgt
    exact jwtVerify_expired t s now h3 (by rw [h2]; exact Nat.le_of_lt hgt)

/-- C7 witness: the token of a concrete successful login at time 0 has
expiry sevenDays, verifies at time 1, and its expiry branch is available
at any later instant. -/
theorem C7_witness :
    (jwtSign ⟨1, "alice", "user"⟩ "sec" 0 sevenDays).iat = 0 ∧
    (jwtSign ⟨1, "alice", "user"⟩ "sec" 0 sevenDays).exp = 0 + sevenDays ∧
    (jwtSign ⟨1, "alice", "user"⟩ "sec" 0 sevenDays).sig = "sec" ∧
    (1 < 0 + sevenDays →
      jwtVerify (jwtSign ⟨1, "alice", "user"⟩ "sec" 0 sevenDays) "sec" 1 =
        .ok (jwtSign ⟨1, "alice", "user"⟩ "sec" 0 sevenDays).claims) ∧
    (0 + sevenDays < 1 →
      jwtVerify (jwtSign ⟨1, "alice", "user"⟩ "sec" 0 sevenDays) "sec" 1 =
        .error .TokenExpiredError) :=
  C7_theorem "sec" 0 1 0 0 ⟨some "alice", some "secret1", none⟩
    [⟨1, "alice", bcryptHash "secret1" 12 0, "user", 0⟩]
    (jwtSign ⟨1, "alice", "user"⟩ "sec" 0 sevenDays)
    (Or.inl (by decide))

/-- C8: a valid, unexpired bearer token whose role is not admin makes
DELETE /api/users/:id answer 403 Admin access required, and the table is
returned untouched. -/
theorem C8_theorem (t : Jwt) (s : String) (now idParam : Nat) (db : UserTable)
    (hs : s ≠ "") (hsig : t.sig = s) (hfresh : now < t.exp)
    (hrole : t.claims.role ≠ "admin") :
    deleteUserRoute (.bearer t) idParam db (some s) now =
      (errResp 403 "Admin access required", db) := by
  simp [deleteUserRoute, verifyToken_proceed t s now hs hsig hfresh,
    isAdmin, bne_iff_ne, hrole]

/-- C8 witness: a concrete role-user token deleting the only row gets 403
and the row survives. -/
theorem C8_witness :
    deleteUserRoute (.bearer (jwtSign ⟨1, "alice", "user"⟩ "sec" 0 sevenDays)) 1
      [⟨1, "alice", bcryptHash "secret1" 12 0, "user", 0⟩] (some "sec") 1 =
    (errResp 403 "Admin access required",
      [⟨1, "alice", bcryptHash "secret1" 12 0, "user", 0⟩]) :=
  C8_theorem (jwtSign ⟨1, "alice", "user"⟩ "sec" 0 sevenDays) "sec" 1 1
    [⟨1, "alice", bcryptHash "secret1" 12 0, "user", 0⟩]
    (by decide) rfl (by decide) (by decide)

/-- C9: with a falsy JWT_SECRET the boot check exits the process, and the
token middleware never attaches claims under that environment, so no
protected request authenticates. -/
theorem C9_theorem (env : Env) (auth : AuthHeader) (now : Nat) (u : JwtClaims)
    (h : strTruthy env.jwtSecret = false) :
    serverStartup env = .exitOne ∧
    verifyToken auth env.jwtSecret now ≠ .proceed u := by
  constructor
  · simp [serverStartup, h]
  · cases auth <;> simp [verifyToken, h]

/-- C9 witness: the empty environment exits at boot and the middleware
rejects a requestless header under the absent secret. -/
theorem C9_witness :
    serverStartup ⟨none, none⟩ = .exitOne ∧
    verifyToken .missing none 0 ≠ .proceed ⟨1, "alice", "user"⟩ :=
  C9_theorem ⟨none, none⟩ .missing 0 ⟨1, "alice", "user"⟩ rfl

/-- Deleting by an id no row carries leaves the table unchanged. -/
theorem deleteById_absent (db : UserTable) (i : Nat)
    (h : ∀ u ∈ db, u.id ≠ i) : deleteById db i = db :=
  List.filter_eq_self.mpr (fun u hu => bne_iff_ne.mpr (h u hu))

/-- Mapping a function that fixes every member of a list is the identity. -/
theorem map_eq_self_of_mem (l : List User) (f : User → User)
    (h : ∀ a ∈ l, f a = a) : l.map f = l := by
  induction l with
  | nil => rfl
  | cons a l ih =>
    simp only [List.map_cons, h a (List.mem_cons_self a l), List.cons.injEq, true_and]
    exact ih (fun b hb => h b (List.mem_cons_of_mem a hb))

/-- Updating the role at an id no row carries leaves the table unchanged. -/
theorem updateRoleById_absent (db : UserTable) (i : Nat) (r : String)
    (h : ∀ u ∈ db, u.id ≠ i) : updateRoleById db i r = db := by
  refine map_eq_self_of_mem db _ (fun u hu => ?_)
  rw [if_neg]
  simp only [beq_iff_eq]
  exact h u hu

/-- C10: an admin-authenticated delete or role update aimed at an id that
matches no row still answers 200 with its success message, and the table
comes back unchanged: absence of the target is never reported as 404. -/
theorem C10_theorem (t : Jwt) (s role : String) (now idParam : Nat)
    (db : UserTable)
    (hs : s ≠ "") (hsig : t.sig = s) (hfresh : now < t.exp)
    (hadmin : t.claims.role = "admin")
    (habsent : ∀ u ∈ db, u.id ≠ idParam) :
    deleteUserRoute (.bearer t) idParam db (some s) now =
      (⟨200, none, [], some "User deleted", none, none⟩, db) ∧
    updateRoleRoute (.bearer t) idParam role db (some s) now =
      (⟨200, none, [], some "User role updated", none, none⟩, db) := by
  have hmw := verifyToken_proceed t s now hs hsig hfresh
  have hadm : isAdmin t.claims = none := by simp [isAdmin, hadmin]
  constructor
  · simp [deleteUserRoute, hmw, hadm, deleteById_absent db idParam habsent]
  · simp [updateRoleRoute, hmw, hadm, updateRoleById_absent db idParam role habsent]

/-- C10 witness: a concrete admin token deleting and role-updating the
missing id 99 gets both success messages while the lone row survives. -/
theorem C10_witness :
    deleteUserRoute (.bearer (jwtSign ⟨2, "boss", "admin"⟩ "sec" 0 sevenDays)) 99
      [⟨1, "alice", bcryptHash "secret1" 12 0, "user", 0⟩] (some "sec") 1 =
      (⟨200, none, [], some "User deleted", none, none⟩,
        [⟨1, "alice", bcryptHash "secret1" 12 0, "user", 0⟩]) ∧
    updateRoleRoute (.bearer (jwtSign ⟨2, "boss", "admin"⟩ "sec" 0 sevenDays)) 99
      "admin" [⟨1, "alice", bcryptHash "secret1" 12 0, "user", 0⟩] (some "sec") 1 =
      (⟨200, none, [], some "User role updated", none, none⟩,
        [⟨1, "alice", bcryptHash "secret1" 12 0, "user", 0⟩]) :=
  C10_theorem (jwtSign ⟨2, "boss", "admin"⟩ "sec" 0 sevenDays) "sec" "admin" 1 99
    [⟨1, "alice", bcryptHash "secret1" 12 0, "user", 0⟩]
    (by decide) rfl (by decide) rfl (by decide)

end EcardV2
